import Mathlib

/-!
Verification development for the TigerVNC single-threaded session coordinator
(`src/common/rfb/VNCServerST.cxx`).

The coordinator is embedded shallowly: its member state becomes a Lean
structure, each public operation becomes a pure function from state to state,
and every call the coordinator makes into its external collaborators (the
`SDesktop` backend, the per-client `VNCSConnectionST` protocol drivers, and
raw sockets) is recorded as an `Event` in an emitted trace.  Operations that
throw C++ exceptions return the mutated state together with an error value,
mirroring the fact that member writes performed before a `throw` survive it.

External collaborators that live outside the provided sources
(`ComparingUpdateTracker`, `core::Timer`, `core::Region`, `network::Socket`,
`ScreenSet`, the `Blacklist`) are modelled at the interface granularity the
coordinator observes, as documented on each definition.
-/

namespace VNCServerST

/-- A 2-D point (`core::Point`). -/
structure Point where
  x : Int
  y : Int
deriving DecidableEq, Repr

/-- Modelled from the spec: a `network::Socket` as the coordinator observes it —
an identity, a peer address (used by the blacklist), a peer endpoint string,
and the `requiresQuery` flag.  Socket I/O (writes, shutdown) is recorded in
the event trace rather than mutating the socket value. -/
structure Socket where
  sid : Nat
  peerAddress : String
  peerEndpoint : String
  requiresQuery : Bool
deriving DecidableEq, Repr

/-- Modelled from the spec: the per-client `VNCSConnectionST` protocol driver,
reduced to the fields the coordinator reads: its identity, its socket, whether
it has authenticated, and the access-rights bits the coordinator tests
(`AccessNoQuery`, `AccessNonShared`).  `wantsComparer` models the per-client
`getComparerState` opt-in and `needsRenderedCursor` the per-client rendered
cursor requirement. -/
structure Connection where
  connId : Nat
  sock : Socket
  authenticated : Bool
  accessNoQuery : Bool
  accessNonShared : Bool
  wantsComparer : Bool
  needsRenderedCursor : Bool
deriving DecidableEq, Repr

/-- Modelled from the spec: a `ComparingUpdateTracker` abstracted to the two
observables the coordinator uses: whether it currently holds no pending update
(`is_empty`) and whether pixel comparison is `enabled`. -/
structure Comparer where
  is_empty : Bool
  enabled : Bool
deriving DecidableEq, Repr

/-- Modelled from the spec: a `core::Region` abstracted to whether it is
non-empty, which is all the coordinator state machine observes here. -/
structure Region where
  nonempty : Bool
deriving DecidableEq, Repr

/-- Modelled from the spec: a `core::Timer` as the coordinator drives it:
`start`/`repeat` arm it with an interval in milliseconds, `stop` disarms it,
`isStarted` reads `running`. -/
structure Timer where
  running : Bool
  intervalMs : Nat
deriving DecidableEq, Repr

/-- A single monitor rectangle (`rfb::Screen`). -/
structure Screen where
  scrId : Int
  x : Int
  y : Int
  w : Int
  h : Int
  flags : Nat
deriving DecidableEq, Repr

/-- An `rfb::ScreenSet` is a list of screens. -/
abbrev ScreenSet := List Screen

/-- Modelled from the spec: `ScreenSet::validate` (the class lives outside the
provided sources) — "each Screen rect must lie within the framebuffer and the
set must be non-empty". -/
def ScreenSet.validate (layout : ScreenSet) (fbW fbH : Int) : Bool :=
  !layout.isEmpty &&
  layout.all (fun s => decide (0 ≤ s.x) && decide (0 ≤ s.y) &&
    decide (0 < s.w) && decide (0 < s.h) &&
    decide (s.x + s.w ≤ fbW) && decide (s.y + s.h ≤ fbH))

/-- A `PixelBuffer` as the coordinator observes it: its dimensions. -/
structure PixelBuffer where
  width : Int
  height : Int
deriving DecidableEq, Repr

/-- The framebuffer rectangle `pb->getRect()`, abstracted to its emptiness. -/
def PixelBuffer.getRect (b : PixelBuffer) : Region :=
  ⟨decide (0 < b.width) && decide (0 < b.height)⟩

/-- The result codes of `SDesktop::setScreenLayout`
(spec §4.1: success | invalid | prohibited | ioerror | outofresources). -/
inductive SDSResult where
  | success
  | prohibited
  | invalid
  | ioerror
  | outofresources
deriving DecidableEq, Repr

/-- The reason code sent with a screen-layout-change notification. -/
inductive LayoutReason where
  | server
  | otherClient
  | client
deriving DecidableEq, Repr

/-- The `rfb::Server` configuration parameters the coordinator reads. -/
structure ServerConfig where
  maxIdleTime : Nat
  maxDisconnectionTime : Nat
  maxConnectionTime : Nat
  frameRate : Nat
  neverShared : Bool
  disconnectClients : Bool
  queryConnect : Bool
  acceptCutText : Bool
  sendCutText : Bool
  acceptKeyEvents : Bool
  acceptPointerEvents : Bool
  acceptSetDesktopSize : Bool
  compareFB : Nat
deriving DecidableEq, Repr

/-- Exceptions the coordinator can throw. -/
inductive ServerError where
  | invalidArgument (msg : String)
  | logicError (msg : String)
  | runtimeError (msg : String)
deriving DecidableEq, Repr

/-- One observable call from the coordinator into an external collaborator. -/
inductive Event where
  | socketWrite (sid : Nat) (bytes : List Nat)
  | socketShutdown (sid : Nat)
  | desktopPointerEvent (pos : Point) (buttonMask : Nat)
  | desktopKeyEvent (keysym keycode : Nat) (down : Bool)
  | desktopClipboardRequest
  | desktopClipboardAnnounce (available : Bool)
  | desktopClipboardData (data : String)
  | desktopFrameTick (msc : Nat)
  | desktopTerminate
  | desktopStart
  | desktopStop
  | desktopSetScreenLayout (w h : Int) (layout : ScreenSet)
  | desktopQueryConnection (sid : Nat) (userName : String)
  | approveConn (connId : Nat) (accept : Bool) (reason : Option String)
  | connectionDestroyed (connId : Nat)
  | clientPixelBufferChange (connId : Nat)
  | clientScreenLayoutChange (connId : Nat) (reason : LayoutReason)
  | clientAddCopied (connId : Nat)
  | clientAddChanged (connId : Nat)
  | clientWriteFramebufferUpdate (connId : Nat)
  | clientSendClipboardData (connId : Nat) (data : String)
  | clientProcessMessages (connId : Nat)
  | clientFlushSocket (connId : Nat)
deriving DecidableEq, Repr

/-- The member state of `VNCServerST`.  `pointerClient`, `clipboardClient` and
`clipboardRequestors` store connection identities (the C++ stores pointers
into `clients`).  The blacklist is modelled as the set of blackmarked peer
addresses (`Blacklist` lives outside the provided sources; the coordinator
only asks `isBlackmarked` and `clearBlackmark`). -/
structure ServerState where
  blacklist : List String
  desktopStarted : Bool
  blockCounter : Nat
  pb : Option PixelBuffer
  comparer : Option Comparer
  screenLayout : ScreenSet
  clients : List Connection
  closingSockets : List Socket
  pointerClient : Option Nat
  pointerClientTime : Int
  clipboardClient : Option Nat
  clipboardRequestors : List Nat
  cursorPos : Point
  renderedCursorInvalid : Bool
  msc : Nat
  queuedMsc : Nat
  idleTimer : Timer
  disconnectTimer : Timer
  connectTimer : Timer
  frameTimer : Timer
deriving DecidableEq, Repr

/-- Result of an operation that may throw: final state, emitted events and the
error, if any.  The state is the one reached when the exception propagates
(member writes before a `throw` survive it). -/
structure OpResult where
  state : ServerState
  events : List Event
  error : Option ServerError
deriving DecidableEq, Repr

instance : DecidableEq (Except ServerError SDSResult) := fun a b =>
  match a, b with
  | .error e, .error f =>
    if h : e = f then isTrue (by rw [h]) else isFalse (by simp [h])
  | .ok x, .ok y =>
    if h : x = y then isTrue (by rw [h]) else isFalse (by simp [h])
  | .error _, .ok _ => isFalse (by simp)
  | .ok _, .error _ => isFalse (by simp)

/-- `Blacklist::isBlackmarked`, on the modelled blacklist. -/
def isBlackmarked (s : ServerState) (addr : String) : Bool :=
  s.blacklist.contains addr

/-- Bytes of an ASCII string, as `rdr::OutStream::writeBytes` emits them. -/
def asciiBytes (str : String) : List Nat :=
  str.toList.map Char.toNat

/-- Big-endian 32-bit encoding, as `rdr::OutStream::writeU32` emits it. -/
def u32be (v : Nat) : List Nat :=
  [v / 2 ^ 24 % 256, v / 2 ^ 16 % 256, v / 2 ^ 8 % 256, v % 256]

/-- The bytes the blacklisted-reject path of `VNCServerST::addSocket` writes:
the RFB 3.3 version line, security result 0, and the length-prefixed reason,
exactly as lines 151-155 of `VNCServerST.cxx` build them. -/
def rejectBanner : List Nat :=
  asciiBytes "RFB 003.003\n" ++ u32be 0 ++
  u32be (String.length "Too many security failures") ++
  asciiBytes "Too many security failures"

/-- `VNCServerST::addSocket`.  The construction and `init()` of the external
`VNCSConnectionST` is abstracted by `newClient`: `some c` when construction
and init succeed yielding driver `c` (whose socket is `sock`), `none` when
either throws (the catch block then shuts the socket down and enqueues it). -/
def addSocket (cfg : ServerConfig) (s : ServerState) (sock : Socket)
    (newClient : Option Connection) : ServerState × List Event :=
  if isBlackmarked s sock.peerAddress then
    ({ s with closingSockets := s.closingSockets ++ [sock] },
     [Event.socketWrite sock.sid rejectBanner, Event.socketShutdown sock.sid])
  else
    let s1 :=
      if cfg.maxConnectionTime ≠ 0 ∧ s.clients.isEmpty = true then
        { s with connectTimer := ⟨true, cfg.maxConnectionTime * 1000⟩ }
      else s
    let s2 := { s1 with disconnectTimer := { s1.disconnectTimer with running := false } }
    match newClient with
    | some client => ({ s2 with clients := client :: s2.clients }, [])
    | none =>
      ({ s2 with closingSockets := s2.closingSockets ++ [sock] },
       [Event.socketShutdown sock.sid])

/-- `VNCServerST::getSockets`: every live client's socket followed by every
closing socket. -/
def getSockets (s : ServerState) : List Socket :=
  s.clients.map (fun c => c.sock) ++ s.closingSockets

/-- The guard `!desktopStarted || ((comparer != nullptr) && comparer->is_empty())`
shared by `startFrameClock` and the frame branch of `handleTimeout`: true when
there is no update work to emit. -/
def nothingPending (s : ServerState) : Bool :=
  !s.desktopStarted ||
  (match s.comparer with
   | some c => c.is_empty
   | none => false)

/-- `VNCServerST::startFrameClock` (lines 810-835). -/
def startFrameClock (cfg : ServerConfig) (s : ServerState) : ServerState :=
  if s.frameTimer.running = true then s
  else if 0 < s.blockCounter then s
  else if nothingPending s = true ∧ s.queuedMsc < s.msc then s
  else if s.desktopStarted = false then
    { s with frameTimer := ⟨true, 1000⟩ }
  else
    { s with frameTimer := ⟨true, 1000 / cfg.frameRate / 2⟩ }

/-- `VNCServerST::stopFrameClock`. -/
def stopFrameClock (s : ServerState) : ServerState :=
  { s with frameTimer := { s.frameTimer with running := false } }

/-- `VNCServerST::blockUpdates`. -/
def blockUpdates (s : ServerState) : ServerState :=
  stopFrameClock { s with blockCounter := s.blockCounter + 1 }

/-- `VNCServerST::unblockUpdates` (the C++ asserts `blockCounter > 0`; the
decrement is `Nat` subtraction). -/
def unblockUpdates (cfg : ServerConfig) (s : ServerState) : ServerState :=
  let s1 := { s with blockCounter := s.blockCounter - 1 }
  if s1.blockCounter = 0 then startFrameClock cfg s1 else s1

/-- `VNCServerST::queueMsc`: raise `queuedMsc` to `target` (monotone max) and
start the frame clock. -/
def queueMsc (cfg : ServerConfig) (s : ServerState) (target : Nat) : ServerState :=
  let s1 := if s.queuedMsc < target then { s with queuedMsc := target } else s
  startFrameClock cfg s1

/-- `ComparingUpdateTracker::add_changed` on the emptiness abstraction: a
non-empty region makes the tracker non-empty. -/
def Comparer.addChanged (c : Comparer) (r : Region) : Comparer :=
  { c with is_empty := c.is_empty && !r.nonempty }

/-- `ComparingUpdateTracker::clear`. -/
def Comparer.clear (c : Comparer) : Comparer :=
  { c with is_empty := true }

/-- `VNCServerST::add_changed`: funnel into the comparer (no-op when none) and
start the frame clock. -/
def add_changed (cfg : ServerConfig) (s : ServerState) (region : Region) : ServerState :=
  match s.comparer with
  | none => s
  | some c => startFrameClock cfg { s with comparer := some (c.addChanged region) }

/-- `VNCServerST::getComparerState` (lines 934-947). -/
def getComparerState (cfg : ServerConfig) (s : ServerState) : Bool :=
  if cfg.compareFB = 0 then false
  else if cfg.compareFB ≠ 2 then true
  else s.clients.any (fun c => c.wantsComparer)

/-- `VNCServerST::writeUpdate` (lines 860-900).  The pixel work —
`getUpdateInfo`, cursor-rectangle intersection, `pb->grabRegion`,
`comparer->compare()` — happens in external collaborators; its observable
effect on the coordinator is that the comparer is enabled or disabled per
`getComparerState` and then cleared, and that every client receives
`add_copied`, `add_changed`, `writeFramebufferUpdateOrClose` in order. -/
def writeUpdate (cfg : ServerConfig) (s : ServerState) : ServerState × List Event :=
  let comparer1 := s.comparer.map (fun c =>
    Comparer.clear { c with enabled := getComparerState cfg s })
  (({ s with comparer := comparer1 }),
   List.flatten (s.clients.map (fun c =>
     [Event.clientAddCopied c.connId, Event.clientAddChanged c.connId,
      Event.clientWriteFramebufferUpdate c.connId])))

/-- The four coordinator timers, used to dispatch `handleTimeout`. -/
inductive WhichTimer where
  | frame
  | idle
  | disconnect
  | connect
deriving DecidableEq, Repr

/-- `VNCServerST::handleTimeout` (lines 663-702).  The frame branch: return
without re-arming when nothing is pending and `queuedMsc < msc`; otherwise
re-arm (`frameTimer.repeat`) at the normal or slow rate, run `writeUpdate`
when the desktop is started and the comparer is non-empty, increment `msc`
and call `desktop->frameTick(msc)`.  The other three branches log and call
`desktop->terminate()`. -/
def handleTimeout (cfg : ServerConfig) (s : ServerState) (t : WhichTimer) :
    ServerState × List Event :=
  match t with
  | .frame =>
    if nothingPending s = true ∧ s.queuedMsc < s.msc then (s, [])
    else
      let timeout := if s.desktopStarted = false then 1000 else 1000 / cfg.frameRate
      let s1 := { s with frameTimer := ⟨true, timeout⟩ }
      let r :=
        if s1.desktopStarted &&
           (match s1.comparer with
            | some c => !c.is_empty
            | none => false) then
          writeUpdate cfg s1
        else (s1, [])
      let s2 := { r.1 with msc := r.1.msc + 1 }
      (s2, r.2 ++ [Event.desktopFrameTick s2.msc])
  | .idle => (s, [Event.desktopTerminate])
  | .disconnect => (s, [Event.desktopTerminate])
  | .connect => (s, [Event.desktopTerminate])

/-- `VNCServerST::authClientCount`. -/
def authClientCount (s : ServerState) : Nat :=
  (s.clients.filter (fun c => c.authenticated)).length

/-- `VNCServerST::stopDesktop`: idempotent; flips `desktopStarted` and calls
`desktop->stop()` only when it was started. -/
def stopDesktop (s : ServerState) : ServerState × List Event :=
  if s.desktopStarted = true then
    ({ s with desktopStarted := false }, [Event.desktopStop])
  else (s, [])

/-- `VNCServerST::handleClipboardAnnounce` (lines 545-558). -/
def handleClipboardAnnounce (cfg : ServerConfig) (s : ServerState)
    (client : Nat) (available : Bool) : ServerState × List Event :=
  if available then
    if cfg.acceptCutText = false then (s, [])
    else ({ s with clipboardClient := some client },
          [Event.desktopClipboardAnnounce true])
  else
    if s.clipboardClient ≠ some client then (s, [])
    else ({ s with clipboardClient := none },
          [Event.desktopClipboardAnnounce false])

/-- `removeSocket`, lines 188-192: if the dying connection held the pointer
grab, release the buttons it pressed and clear `pointerClient`. -/
def releasePointer (s : ServerState) (ci : Connection) : ServerState × List Event :=
  if s.pointerClient = some ci.connId then
    ({ s with pointerClient := none }, [Event.desktopPointerEvent s.cursorPos 0])
  else (s, ([] : List Event))

/-- `removeSocket`, lines 193-194: if the dying connection owned the
clipboard, run the clipboard-withdraw path. -/
def withdrawClipboard (cfg : ServerConfig) (s : ServerState) (ci : Connection) :
    ServerState × List Event :=
  if s.clipboardClient = some ci.connId then
    handleClipboardAnnounce cfg s ci.connId false
  else (s, [])

/-- `removeSocket`, lines 195-202: drop the dying connection's
clipboard-requestor entries and delete it from `clients`. -/
def destroyClient (s : ServerState) (ci : Connection) : ServerState :=
  { s with
    clipboardRequestors := s.clipboardRequestors.filter (fun k => decide (k ≠ ci.connId)),
    clients := s.clients.filter (fun c => decide (c.connId ≠ ci.connId)) }

/-- `removeSocket`, lines 206-208: stop the desktop when no authenticated
clients remain. -/
def maybeStopDesktop (s : ServerState) : ServerState × List Event :=
  if authClientCount s = 0 then stopDesktop s else (s, [])

/-- `removeSocket`, lines 213-216: stop the connect timer; start the
disconnect timer when configured and no clients remain. -/
def adjustExitTimers (cfg : ServerConfig) (s : ServerState) : ServerState :=
  let s5 := { s with connectTimer := { s.connectTimer with running := false } }
  if cfg.maxDisconnectionTime ≠ 0 ∧ s5.clients.isEmpty = true then
    { s5 with disconnectTimer := ⟨true, cfg.maxDisconnectionTime * 1000⟩ }
  else s5

/-- `VNCServerST::removeSocket` (lines 182-224).  When `sock` belongs to a
live connection, run the stages above in source order; otherwise drop `sock`
from `closingSockets`. -/
def removeSocket (cfg : ServerConfig) (s : ServerState) (sock : Socket) :
    ServerState × List Event :=
  match s.clients.find? (fun c => decide (c.sock = sock)) with
  | some ci =>
    let r1 := releasePointer s ci
    let r2 := withdrawClipboard cfg r1.1 ci
    let r4 := maybeStopDesktop (destroyClient r2.1 ci)
    (adjustExitTimers cfg r4.1,
     r1.2 ++ r2.2 ++ [Event.connectionDestroyed ci.connId] ++ r4.2)
  | none =>
    ({ s with closingSockets := s.closingSockets.filter (fun k => decide (k ≠ sock)) }, [])

/-- `VNCServerST::processSocketReadEvent`: route to the matching connection's
`processMessages`, else throw `invalid_argument`. -/
def processSocketReadEvent (s : ServerState) (sock : Socket) : OpResult :=
  match s.clients.find? (fun c => decide (c.sock = sock)) with
  | some ci => ⟨s, [Event.clientProcessMessages ci.connId], none⟩
  | none => ⟨s, [], some (.invalidArgument "Invalid Socket in VNCServerST")⟩

/-- `VNCServerST::processSocketWriteEvent`: route to the matching connection's
`flushSocket`, else throw `invalid_argument`. -/
def processSocketWriteEvent (s : ServerState) (sock : Socket) : OpResult :=
  match s.clients.find? (fun c => decide (c.sock = sock)) with
  | some ci => ⟨s, [Event.clientFlushSocket ci.connId], none⟩
  | none => ⟨s, [], some (.invalidArgument "Invalid Socket in VNCServerST")⟩

/-- `VNCServerST::approveConnection` (lines 620-630): find the connection that
owns `sock` and forward; silently return when none matches. -/
def approveConnection (s : ServerState) (sock : Socket) (accept : Bool)
    (reason : Option String) : ServerState × List Event :=
  match s.clients.find? (fun c => decide (c.sock = sock)) with
  | some ci => (s, [Event.approveConn ci.connId accept reason])
  | none => (s, [])

/-- `VNCServerST::setPixelBuffer(pb, layout)` (lines 283-318).  Mirrors the
C++ statement order: the new buffer is adopted and the old comparer dropped
*before* the layout is validated, so the mutations survive a throw. -/
def setPixelBuffer (cfg : ServerConfig) (s : ServerState)
    (pb_ : Option PixelBuffer) (layout : ScreenSet) : OpResult :=
  let s1 := { s with pb := pb_, comparer := none }
  match pb_ with
  | none =>
    let s2 := { s1 with screenLayout := [] }
    if s2.desktopStarted = true then
      ⟨s2, [], some (.logicError "setPixelBuffer: Null PixelBuffer when desktopStarted?")⟩
    else ⟨s2, [], none⟩
  | some b =>
    if layout.validate b.width b.height = false then
      ⟨s1, [], some (.invalidArgument "setPixelBuffer: Invalid screen layout")⟩
    else
      let s2 := { s1 with screenLayout := layout,
                          comparer := some ⟨true, true⟩,
                          renderedCursorInvalid := true }
      let s3 := add_changed cfg s2 b.getRect
      ⟨s3, s3.clients.map (fun c => Event.clientPixelBufferChange c.connId), none⟩

/-- `VNCServerST::setDesktopSize` (lines 572-616).  `SDesktop::setScreenLayout`
is external; `backendCode` is the result code it returns and `backendEffect`
the synchronous callbacks it makes into the coordinator (typically a
`setScreenLayout` call back) before returning.  The third component is the
returned result code, or the thrown exception. -/
def setDesktopSize (cfg : ServerConfig) (s : ServerState) (requester : Nat)
    (fbWidth fbHeight : Int) (layout : ScreenSet)
    (backendCode : SDSResult) (backendEffect : ServerState → ServerState) :
    ServerState × List Event × Except ServerError SDSResult :=
  if cfg.acceptSetDesktopSize = false then (s, [], .ok .prohibited)
  else if 16384 < fbWidth ∨ 16384 < fbHeight then (s, [], .ok .prohibited)
  else if layout.validate fbWidth fbHeight = false then (s, [], .ok .invalid)
  else
    let s1 := backendEffect s
    let evs := [Event.desktopSetScreenLayout fbWidth fbHeight layout]
    if backendCode ≠ SDSResult.success then (s1, evs, .ok backendCode)
    else if s1.screenLayout ≠ layout then
      (s1, evs,
       .error (.runtimeError "Desktop configured a different screen layout than requested"))
    else
      (s1,
       evs ++ (s1.clients.filter (fun c => decide (c.connId ≠ requester))).map
         (fun c => Event.clientScreenLayoutChange c.connId LayoutReason.otherClient),
       .ok .success)

/-- `VNCServerST::pointerEvent` (lines 510-536). -/
def pointerEvent (cfg : ServerConfig) (s : ServerState) (now : Int)
    (client : Nat) (pos : Point) (buttonMask : Nat) : ServerState × List Event :=
  if cfg.acceptPointerEvents = false then (s, [])
  else
    let s1 :=
      if cfg.maxIdleTime ≠ 0 then
        { s with idleTimer := ⟨true, cfg.maxIdleTime * 1000⟩ }
      else s
    if s1.pointerClient ≠ none ∧ s1.pointerClient ≠ some client ∧
       now - s1.pointerClientTime < 10 then
      (s1, [])
    else
      let s2 := { s1 with pointerClientTime := now,
                          pointerClient := if buttonMask ≠ 0 then some client else none }
      (s2, [Event.desktopPointerEvent pos buttonMask])

/-- `VNCServerST::sendClipboardData` (lines 391-406). -/
def sendClipboardData (cfg : ServerConfig) (s : ServerState) (data : String) : OpResult :=
  if cfg.sendCutText = false then ⟨s, [], none⟩
  else if data.toList.contains '\r' then
    ⟨s, [], some (.invalidArgument "Invalid carriage return in clipboard data")⟩
  else
    ⟨{ s with clipboardRequestors := [] },
     s.clipboardRequestors.map (fun cid => Event.clientSendClipboardData cid data),
     none⟩

/-- `VNCServerST::startDesktop` (lines 761-781).  `SDesktop::start()` is
external and synchronously calls back into the coordinator (it must install a
pixel buffer via `setPixelBuffer`); `startCb` models those callbacks. -/
def startDesktop (cfg : ServerConfig) (s : ServerState)
    (startCb : ServerState → ServerState) : OpResult :=
  if s.desktopStarted = true then ⟨s, [], none⟩
  else
    let s1 := startCb s
    if s1.pb = none then
      ⟨s1, [Event.desktopStart],
       some (.logicError "SDesktop::start() did not set a valid PixelBuffer")⟩
    else
      let s2 := { s1 with desktopStarted := true }
      let r :=
        match s2.comparer with
        | some c => if c.is_empty = false then writeUpdate cfg s2 else (s2, [])
        | none => (s2, [])
      let s3 :=
        if r.1.frameTimer.running = true then startFrameClock cfg (stopFrameClock r.1)
        else r.1
      ⟨s3, Event.desktopStart :: r.2, none⟩

/-- `Blacklist::clearBlackmark` on the modelled blacklist: drop the address
from the blackmarked set. -/
def clearBlackmark (s : ServerState) (addr : String) : ServerState :=
  { s with blacklist := s.blacklist.filter (fun a => decide (a ≠ addr)) }

/-- `VNCServerST::queryConnection` (lines 704-738): clear the peer's blackmark,
start the desktop, then decide — reject when never-shared applies, auto-approve
when no query is configured or required or the client holds `AccessNoQuery`,
else delegate to `desktop->queryConnection`. -/
def queryConnection (cfg : ServerConfig) (s : ServerState) (client : Connection)
    (userName : String) (startCb : ServerState → ServerState) : OpResult :=
  let s0 := clearBlackmark s client.sock.peerAddress
  let r := startDesktop cfg s0 startCb
  match r.error with
  | some e => ⟨r.state, r.events, some e⟩
  | none =>
    let s1 := r.state
    if cfg.neverShared && !cfg.disconnectClients && decide (0 < authClientCount s1) then
      let r2 := approveConnection s1 client.sock false (some "The server is already in use")
      ⟨r2.1, r.events ++ r2.2, none⟩
    else if !cfg.queryConnect && !client.sock.requiresQuery then
      let r2 := approveConnection s1 client.sock true none
      ⟨r2.1, r.events ++ r2.2, none⟩
    else if client.accessNoQuery then
      let r2 := approveConnection s1 client.sock true none
      ⟨r2.1, r.events ++ r2.2, none⟩
    else
      ⟨s1, r.events ++ [Event.desktopQueryConnection client.sock.sid userName], none⟩

/-! ## Concrete fixtures used by witnesses and counterexamples -/

/-- A configuration with every accept flag on and all exit timers disabled,
used by concrete witnesses. -/
def baseConfig : ServerConfig :=
  { maxIdleTime := 0, maxDisconnectionTime := 0, maxConnectionTime := 0,
    frameRate := 60, neverShared := false, disconnectClients := false,
    queryConnect := false, acceptCutText := true, sendCutText := true,
    acceptKeyEvents := true, acceptPointerEvents := true,
    acceptSetDesktopSize := true, compareFB := 1 }

/-- A freshly constructed, quiescent coordinator state. -/
def baseState : ServerState :=
  { blacklist := [], desktopStarted := false, blockCounter := 0, pb := none,
    comparer := none, screenLayout := [], clients := [], closingSockets := [],
    pointerClient := none, pointerClientTime := 0, clipboardClient := none,
    clipboardRequestors := [], cursorPos := ⟨0, 0⟩, renderedCursorInvalid := false,
    msc := 0, queuedMsc := 0, idleTimer := ⟨false, 0⟩, disconnectTimer := ⟨false, 0⟩,
    connectTimer := ⟨false, 0⟩, frameTimer := ⟨false, 0⟩ }

/-- A sample socket whose peer is `1.2.3.4`. -/
def sockA : Socket := ⟨1, "1.2.3.4", "1.2.3.4::5900", false⟩

/-- A second sample socket. -/
def sockB : Socket := ⟨2, "5.6.7.8", "5.6.7.8::5901", false⟩

/-- A sample authenticated client driver on `sockA`. -/
def connA : Connection := ⟨1, sockA, true, false, false, false, false⟩

/-- A second sample client driver on `sockB`, not yet authenticated. -/
def connB : Connection := ⟨2, sockB, false, false, false, false, false⟩

/-! ## Claim theorems -/

/-- **C2.** For every socket whose peer address the blacklist reports
blackmarked, `addSocket` writes to the socket exactly the 46-byte sequence:
the 12 ASCII bytes of "RFB 003.003" plus newline, the big-endian 32-bit value
0, the big-endian 32-bit value 26, and the 26 reason bytes
"Too many security failures"; it then shuts the socket down and appends it to
`closingSockets`, leaves `clients` unchanged, and a subsequent `getSockets`
snapshot includes that socket. -/
theorem addSocket_blacklisted_spec (cfg : ServerConfig) (s : ServerState)
    (sock : Socket) (newClient : Option Connection)
    (hbl : isBlackmarked s sock.peerAddress = true) :
    addSocket cfg s sock newClient =
      ({ s with closingSockets := s.closingSockets ++ [sock] },
       [Event.socketWrite sock.sid rejectBanner, Event.socketShutdown sock.sid]) ∧
    rejectBanner =
      [82, 70, 66, 32, 48, 48, 51, 46, 48, 48, 51, 10] ++
      [0, 0, 0, 0] ++ [0, 0, 0, 26] ++ asciiBytes "Too many security failures" ∧
    u32be 0 = [0, 0, 0, 0] ∧
    u32be 26 = [0, 0, 0, 26] ∧
    (asciiBytes "Too many security failures").length = 26 ∧
    rejectBanner.length = 46 ∧
    (addSocket cfg s sock newClient).1.clients = s.clients ∧
    sock ∈ getSockets (addSocket cfg s sock newClient).1 := by
  have h1 : addSocket cfg s sock newClient =
      ({ s with closingSockets := s.closingSockets ++ [sock] },
       [Event.socketWrite sock.sid rejectBanner, Event.socketShutdown sock.sid]) := by
    simp [addSocket, hbl]
  refine ⟨h1, by decide, by decide, by decide, by decide, by decide, ?_, ?_⟩
  · rw [h1]
  · rw [h1]
    simp [getSockets]

/-- Witness for `addSocket_blacklisted_spec` at a concrete blackmarked state. -/
theorem addSocket_blacklisted_spec_witness :
    isBlackmarked { baseState with blacklist := ["1.2.3.4"] } sockA.peerAddress = true ∧
    (addSocket baseConfig { baseState with blacklist := ["1.2.3.4"] } sockA none).2 =
      [Event.socketWrite 1 rejectBanner, Event.socketShutdown 1] :=
  ⟨by decide,
   by
    have h := addSocket_blacklisted_spec baseConfig
      { baseState with blacklist := ["1.2.3.4"] } sockA none (by decide)
    rw [h.1]
    decide⟩

/-- **C8.** With `sendCutText` enabled, `sendClipboardData(data)` raises
invalid-argument if and only if `data` contains a carriage return, and on that
failure the coordinator state (in particular `clipboardRequestors`) is
unchanged; otherwise it delivers `data` to every currently pending clipboard
requestor and then clears the requestor list. -/
theorem sendClipboardData_spec (cfg : ServerConfig) (s : ServerState)
    (data : String) (hsend : cfg.sendCutText = true) :
    ((sendClipboardData cfg s data).error.isSome = true ↔
       data.toList.contains '\r' = true) ∧
    (data.toList.contains '\r' = true →
       sendClipboardData cfg s data =
         ⟨s, [], some (.invalidArgument "Invalid carriage return in clipboard data")⟩) ∧
    (data.toList.contains '\r' = false →
       sendClipboardData cfg s data =
         ⟨{ s with clipboardRequestors := [] },
          s.clipboardRequestors.map (fun cid => Event.clientSendClipboardData cid data),
          none⟩) := by
  cases hcr : data.toList.contains '\r' <;>
    simp only [sendClipboardData, hsend, hcr, Bool.true_eq_false, if_false, if_true,
      Bool.false_eq_true, ite_false, ite_true] <;> simp

/-- Witness for `sendClipboardData_spec`: two pending requestors, no carriage
return — both are served and the list is cleared. -/
theorem sendClipboardData_spec_witness :
    baseConfig.sendCutText = true ∧
    ("copy me".toList.contains '\r' = false ∧
     sendClipboardData baseConfig
       { baseState with clipboardRequestors := [1, 2] } "copy me" =
       ⟨{ baseState with clipboardRequestors := [] },
        [Event.clientSendClipboardData 1 "copy me",
         Event.clientSendClipboardData 2 "copy me"], none⟩) :=
  ⟨by decide,
   by decide,
   by
    have h := (sendClipboardData_spec baseConfig
      { baseState with clipboardRequestors := [1, 2] } "copy me" (by decide)).2.2
      (by decide)
    rw [h]
    decide⟩

/-- **C9.** The clipboard-withdraw path is not gated by `acceptCutText`: for
every configuration, `handleClipboardAnnounce(client, false)` with `client`
equal to `clipboardClient` clears `clipboardClient` and calls
`desktop.handleClipboardAnnounce(false)`, and with `client` different from
`clipboardClient` it returns without calling the backend and without changing
any state. -/
theorem handleClipboardAnnounce_withdraw_spec (cfg : ServerConfig)
    (s : ServerState) (client : Nat) :
    (s.clipboardClient = some client →
       handleClipboardAnnounce cfg s client false =
         ({ s with clipboardClient := none },
          [Event.desktopClipboardAnnounce false])) ∧
    (s.clipboardClient ≠ some client →
       handleClipboardAnnounce cfg s client false = (s, [])) := by
  constructor <;> intro h <;> simp [handleClipboardAnnounce, h]

/-- Witness for `handleClipboardAnnounce_withdraw_spec`, with `acceptCutText`
disabled to exercise the ungated path. -/
theorem handleClipboardAnnounce_withdraw_spec_witness :
    { baseConfig with acceptCutText := false }.acceptCutText = false ∧
    ({ baseState with clipboardClient := some 1 }.clipboardClient = some 1 ∧
     handleClipboardAnnounce { baseConfig with acceptCutText := false }
       { baseState with clipboardClient := some 1 } 1 false =
       ({ baseState with clipboardClient := none },
        [Event.desktopClipboardAnnounce false])) :=
  ⟨by decide,
   by decide,
   by
    have h := (handleClipboardAnnounce_withdraw_spec
      { baseConfig with acceptCutText := false }
      { baseState with clipboardClient := some 1 } 1).1 (by decide)
    rw [h]⟩

/-- **C10.** `approveConnection` called with a socket matching no live
connection returns silently — no error and no state change — whereas
`processSocketReadEvent` and `processSocketWriteEvent` raise invalid-argument
for the same unknown socket. -/
theorem approveConnection_unknown_spec (s : ServerState) (sock : Socket)
    (accept : Bool) (reason : Option String)
    (h : s.clients.find? (fun c => decide (c.sock = sock)) = none) :
    approveConnection s sock accept reason = (s, []) ∧
    (processSocketReadEvent s sock).error =
      some (.invalidArgument "Invalid Socket in VNCServerST") ∧
    (processSocketReadEvent s sock).state = s ∧
    (processSocketWriteEvent s sock).error =
      some (.invalidArgument "Invalid Socket in VNCServerST") ∧
    (processSocketWriteEvent s sock).state = s := by
  simp [approveConnection, processSocketReadEvent, processSocketWriteEvent, h]

/-- Witness for `approveConnection_unknown_spec`: one live client on `sockA`,
queried with the unknown `sockB`. -/
theorem approveConnection_unknown_spec_witness :
    { baseState with clients := [connA] }.clients.find?
      (fun (c : Connection) => decide (c.sock = sockB)) = none ∧
    approveConnection { baseState with clients := [connA] } sockB false none =
      ({ baseState with clients := [connA] }, []) :=
  ⟨by decide,
   (approveConnection_unknown_spec { baseState with clients := [connA] }
     sockB false none (by decide)).1⟩

/-- **C6.** With `acceptPointerEvents` enabled: if `pointerClient` is set,
differs from `client`, and fewer than 10 seconds have elapsed since
`pointerClientTime`, the event is dropped with no call to the backend;
otherwise `pointerClientTime` is set to the current time, `pointerClient` is
set to `client` when the mask is non-zero and cleared when it is zero, and the
event is forwarded to `desktop.pointerEvent(pos, mask)`. -/
theorem pointerEvent_spec (cfg : ServerConfig) (s : ServerState) (now : Int)
    (client : Nat) (pos : Point) (mask : Nat)
    (hacc : cfg.acceptPointerEvents = true) :
    (s.pointerClient ≠ none → s.pointerClient ≠ some client →
     now - s.pointerClientTime < 10 →
       (pointerEvent cfg s now client pos mask).2 = [] ∧
       (pointerEvent cfg s now client pos mask).1.pointerClient = s.pointerClient ∧
       (pointerEvent cfg s now client pos mask).1.pointerClientTime =
         s.pointerClientTime) ∧
    ((s.pointerClient = none ∨ s.pointerClient = some client ∨
      10 ≤ now - s.pointerClientTime) →
       (pointerEvent cfg s now client pos mask).1.pointerClientTime = now ∧
       (pointerEvent cfg s now client pos mask).1.pointerClient =
         (if mask ≠ 0 then some client else none) ∧
       (pointerEvent cfg s now client pos mask).2 =
         [Event.desktopPointerEvent pos mask]) := by
  constructor
  · intro h1 h2 h3
    by_cases hidle : cfg.maxIdleTime = 0 <;>
      simp [pointerEvent, hacc, hidle, h1, h2, h3]
  · intro h1
    rcases h1 with h1 | h1 | h1 <;>
      [skip; skip; (replace h1 := not_lt.mpr h1)] <;>
      by_cases hidle : cfg.maxIdleTime = 0 <;>
        simp [pointerEvent, hacc, hidle, h1]

/-- The state of `pointerEvent_spec_witness`: client 1 took the grab at t=0. -/
def ptrState : ServerState :=
  { baseState with pointerClient := some 1, pointerClientTime := 0 }

/-- Witness for `pointerEvent_spec`: client 2's button press 11 seconds after
client 1 took the grab is forwarded and takes over the grab. -/
theorem pointerEvent_spec_witness :
    baseConfig.acceptPointerEvents = true ∧
    ((10 : Int) ≤ 11 - ptrState.pointerClientTime ∧
     (pointerEvent baseConfig ptrState 11 2 ⟨3, 4⟩ 2).1.pointerClient = some 2 ∧
     (pointerEvent baseConfig ptrState 11 2 ⟨3, 4⟩ 2).2 =
       [Event.desktopPointerEvent ⟨3, 4⟩ 2]) :=
  ⟨by decide,
   by decide,
   by
    have h := (pointerEvent_spec baseConfig ptrState 11 2 ⟨3, 4⟩ 2 (by decide)).2
      (Or.inr (Or.inr (by decide)))
    rw [h.2.1]
    decide,
   by
    have h := (pointerEvent_spec baseConfig ptrState 11 2 ⟨3, 4⟩ 2 (by decide)).2
      (Or.inr (Or.inr (by decide)))
    exact h.2.2⟩

/-- Behaviour of the pointer-release stage of `removeSocket`: its two
outcomes, and the fields it leaves untouched. -/
theorem releasePointer_spec (s : ServerState) (ci : Connection) :
    (s.pointerClient = some ci.connId →
       releasePointer s ci =
         ({ s with pointerClient := none },
          [Event.desktopPointerEvent s.cursorPos 0])) ∧
    (s.pointerClient ≠ some ci.connId → releasePointer s ci = (s, [])) ∧
    (releasePointer s ci).1.clients = s.clients ∧
    (releasePointer s ci).1.clipboardClient = s.clipboardClient ∧
    (releasePointer s ci).1.clipboardRequestors = s.clipboardRequestors ∧
    (releasePointer s ci).1.desktopStarted = s.desktopStarted ∧
    (releasePointer s ci).1.disconnectTimer = s.disconnectTimer := by
  by_cases hp : s.pointerClient = some ci.connId <;> simp [releasePointer, hp]

/-- Behaviour of the clipboard-withdraw stage of `removeSocket`: its two
outcomes, the fields it leaves untouched, and that it emits no pointer
events. -/
theorem withdrawClipboard_spec (cfg : ServerConfig) (s : ServerState)
    (ci : Connection) :
    (s.clipboardClient = some ci.connId →
       withdrawClipboard cfg s ci =
         ({ s with clipboardClient := none },
          [Event.desktopClipboardAnnounce false])) ∧
    (s.clipboardClient ≠ some ci.connId → withdrawClipboard cfg s ci = (s, [])) ∧
    (withdrawClipboard cfg s ci).1.clients = s.clients ∧
    (withdrawClipboard cfg s ci).1.clipboardRequestors = s.clipboardRequestors ∧
    (withdrawClipboard cfg s ci).1.pointerClient = s.pointerClient ∧
    (withdrawClipboard cfg s ci).1.desktopStarted = s.desktopStarted ∧
    (withdrawClipboard cfg s ci).1.disconnectTimer = s.disconnectTimer ∧
    (∀ p : Point, (withdrawClipboard cfg s ci).2.count
      (Event.desktopPointerEvent p 0) = 0) := by
  by_cases hc : s.clipboardClient = some ci.connId <;>
    simp [withdrawClipboard, handleClipboardAnnounce, hc, List.count_eq_zero]

/-- Behaviour of the destroy stage of `removeSocket`. -/
theorem destroyClient_spec (s : ServerState) (ci : Connection) :
    (destroyClient s ci).clients =
      s.clients.filter (fun c => decide (c.connId ≠ ci.connId)) ∧
    (destroyClient s ci).clipboardRequestors =
      s.clipboardRequestors.filter (fun k => decide (k ≠ ci.connId)) ∧
    (destroyClient s ci).pointerClient = s.pointerClient ∧
    (destroyClient s ci).clipboardClient = s.clipboardClient ∧
    (destroyClient s ci).desktopStarted = s.desktopStarted ∧
    (destroyClient s ci).disconnectTimer = s.disconnectTimer := by
  simp [destroyClient]

/-- Behaviour of the desktop-stop stage of `removeSocket`. -/
theorem maybeStopDesktop_spec (s : ServerState) :
    (maybeStopDesktop s).1.clients = s.clients ∧
    (maybeStopDesktop s).1.clipboardRequestors = s.clipboardRequestors ∧
    (maybeStopDesktop s).1.pointerClient = s.pointerClient ∧
    (maybeStopDesktop s).1.clipboardClient = s.clipboardClient ∧
    (maybeStopDesktop s).1.disconnectTimer = s.disconnectTimer ∧
    (authClientCount s = 0 → (maybeStopDesktop s).1.desktopStarted = false) ∧
    (authClientCount s ≠ 0 → maybeStopDesktop s = (s, [])) ∧
    (∀ p : Point, (maybeStopDesktop s).2.count
      (Event.desktopPointerEvent p 0) = 0) := by
  by_cases ha : authClientCount s = 0 <;>
  by_cases hd : s.desktopStarted = true <;>
    simp [maybeStopDesktop, stopDesktop, ha, hd, List.count_eq_zero]

/-- Behaviour of the exit-timer stage of `removeSocket`. -/
theorem adjustExitTimers_spec (cfg : ServerConfig) (s : ServerState) :
    (adjustExitTimers cfg s).clients = s.clients ∧
    (adjustExitTimers cfg s).clipboardRequestors = s.clipboardRequestors ∧
    (adjustExitTimers cfg s).pointerClient = s.pointerClient ∧
    (adjustExitTimers cfg s).clipboardClient = s.clipboardClient ∧
    (adjustExitTimers cfg s).desktopStarted = s.desktopStarted ∧
    (adjustExitTimers cfg s).connectTimer.running = false ∧
    (adjustExitTimers cfg s).disconnectTimer =
      (if cfg.maxDisconnectionTime ≠ 0 ∧ s.clients.isEmpty = true then
        ⟨true, cfg.maxDisconnectionTime * 1000⟩
      else s.disconnectTimer) := by
  by_cases h1 : cfg.maxDisconnectionTime = 0 <;>
  by_cases h2 : s.clients = [] <;>
    simp [adjustExitTimers, h1, h2, List.isEmpty_iff]

/-- **C5.** When `removeSocket(sock)` finds `sock` owned by a live connection
`ci`: if that connection is `pointerClient`, exactly one
`desktop.pointerEvent(cursorPos, 0)` is issued before the connection is
destroyed and `pointerClient` is then null; if it is `clipboardClient`, the
clipboard-withdraw path runs; it is removed from `clipboardRequestors`; the
connection is destroyed; the desktop is stopped when no authenticated clients
remain; `connectTimer` is stopped; and `disconnectTimer` is started iff
`maxDisconnectionTime > 0` and `clients` is now empty (the hypothesis that it
was not already running reflects that it is stopped whenever a client is
accepted). -/
theorem removeSocket_live_spec (cfg : ServerConfig) (s : ServerState)
    (sock : Socket) (ci : Connection)
    (hfind : s.clients.find? (fun c => decide (c.sock = sock)) = some ci)
    (hdisc : s.disconnectTimer.running = false) :
    (s.pointerClient = some ci.connId →
       (removeSocket cfg s sock).2.head? =
         some (Event.desktopPointerEvent s.cursorPos 0) ∧
       (removeSocket cfg s sock).2.count (Event.desktopPointerEvent s.cursorPos 0) = 1 ∧
       (removeSocket cfg s sock).1.pointerClient = none) ∧
    (s.clipboardClient = some ci.connId →
       Event.desktopClipboardAnnounce false ∈ (removeSocket cfg s sock).2 ∧
       (removeSocket cfg s sock).1.clipboardClient = none) ∧
    ci.connId ∉ (removeSocket cfg s sock).1.clipboardRequestors ∧
    Event.connectionDestroyed ci.connId ∈ (removeSocket cfg s sock).2 ∧
    (removeSocket cfg s sock).1.clients =
      s.clients.filter (fun c => decide (c.connId ≠ ci.connId)) ∧
    (authClientCount (removeSocket cfg s sock).1 = 0 →
       (removeSocket cfg s sock).1.desktopStarted = false) ∧
    (removeSocket cfg s sock).1.connectTimer.running = false ∧
    ((removeSocket cfg s sock).1.disconnectTimer.running = true ↔
       (cfg.maxDisconnectionTime ≠ 0 ∧ (removeSocket cfg s sock).1.clients = [])) := by
  have hrs : removeSocket cfg s sock =
      (adjustExitTimers cfg
         (maybeStopDesktop (destroyClient
           (withdrawClipboard cfg (releasePointer s ci).1 ci).1 ci)).1,
       (releasePointer s ci).2 ++
       (withdrawClipboard cfg (releasePointer s ci).1 ci).2 ++
       [Event.connectionDestroyed ci.connId] ++
       (maybeStopDesktop (destroyClient
         (withdrawClipboard cfg (releasePointer s ci).1 ci).1 ci)).2) := by
    simp only [removeSocket, hfind]
  rw [hrs]
  obtain ⟨rpPos, rpNeg, rpClients, rpCC, rpCR, rpDS, rpDT⟩ := releasePointer_spec s ci
  obtain ⟨wcPos, wcNeg, wcClients, wcCR, wcPC, wcDS, wcDT, wcCount⟩ :=
    withdrawClipboard_spec cfg (releasePointer s ci).1 ci
  obtain ⟨dcClients, dcCR, dcPC, dcCC, dcDS, dcDT⟩ :=
    destroyClient_spec (withdrawClipboard cfg (releasePointer s ci).1 ci).1 ci
  obtain ⟨msClients, msCR, msPC, msCC, msDT, msStop, msNoop, msCount⟩ :=
    maybeStopDesktop_spec
      (destroyClient (withdrawClipboard cfg (releasePointer s ci).1 ci).1 ci)
  obtain ⟨aeClients, aeCR, aePC, aeCC, aeDS, aeCT, aeDT⟩ :=
    adjustExitTimers_spec cfg
      (maybeStopDesktop (destroyClient
        (withdrawClipboard cfg (releasePointer s ci).1 ci).1 ci)).1
  refine ⟨fun hp => ?_, fun hc => ?_, ?_, ?_, ?_, ?_, ?_, ?_⟩
  · have hA := rpPos hp
    have hA2 : (releasePointer s ci).2 = [Event.desktopPointerEvent s.cursorPos 0] := by
      rw [hA]
    have hA1 : (releasePointer s ci).1.pointerClient = none := by rw [hA]
    refine ⟨?_, ?_, ?_⟩
    · rw [hA2]
      simp
    · rw [hA2]
      simp [List.count_append, List.count_cons, wcCount, msCount]
    · rw [aePC, msPC, dcPC, wcPC, hA1]
  · have hcA : (releasePointer s ci).1.clipboardClient = some ci.connId := by
      rw [rpCC]; exact hc
    have hB := wcPos hcA
    have hB2 : (withdrawClipboard cfg (releasePointer s ci).1 ci).2 =
        [Event.desktopClipboardAnnounce false] := by rw [hB]
    have hB1 : (withdrawClipboard cfg (releasePointer s ci).1 ci).1.clipboardClient =
        none := by rw [hB]
    refine ⟨?_, ?_⟩
    · rw [hB2]
      simp
    · rw [aeCC, msCC, dcCC, hB1]
  · rw [aeCR, msCR, dcCR]
    simp [List.mem_filter]
  · simp
  · rw [aeClients, msClients, dcClients, wcClients, rpClients]
  · intro hAC
    rw [aeDS]
    apply msStop
    simp only [authClientCount] at hAC ⊢
    rw [aeClients, msClients] at hAC
    exact hAC
  · exact aeCT
  · rw [aeDT, aeClients, msClients, msDT, dcDT, wcDT, rpDT]
    split_ifs with h <;> simp_all [List.isEmpty_iff]

/-- The state of `removeSocket_live_spec_witness`: two clients, client 1
holding both the pointer grab and the clipboard. -/
def rsState : ServerState :=
  { baseState with
    clients := [connA, connB]
    pointerClient := some 1
    clipboardClient := some 1
    clipboardRequestors := [1, 2]
    desktopStarted := true
    pb := some ⟨640, 480⟩
    comparer := some ⟨true, true⟩ }

/-- Witness for `removeSocket_live_spec`: removing client 1's socket releases
its pointer grab exactly once before the connection is destroyed. -/
theorem removeSocket_live_spec_witness :
    (rsState.clients.find? (fun (c : Connection) => decide (c.sock = sockA)) =
       some connA ∧
     rsState.disconnectTimer.running = false ∧
     rsState.pointerClient = some connA.connId) ∧
    ((removeSocket { baseConfig with maxDisconnectionTime := 5 } rsState sockA).2.head? =
       some (Event.desktopPointerEvent rsState.cursorPos 0) ∧
     (removeSocket { baseConfig with maxDisconnectionTime := 5 } rsState sockA).2.count
       (Event.desktopPointerEvent rsState.cursorPos 0) = 1 ∧
     (removeSocket { baseConfig with maxDisconnectionTime := 5 }
       rsState sockA).1.pointerClient = none) :=
  ⟨⟨by decide, by decide, by decide⟩,
   (removeSocket_live_spec { baseConfig with maxDisconnectionTime := 5 } rsState
     sockA connA (by decide) (by decide)).1 (by decide)⟩

/-- **C4.** `setDesktopSize(requester, w, h, layout)` returns prohibited
without calling the backend when `acceptSetDesktopSize` is false or
`w > 16384` or `h > 16384`; returns invalid when `layout` fails
`validate(w, h)`; otherwise calls the backend and propagates any non-success
result code; after a backend success it raises a runtime-error if
`screenLayout` differs from the requested layout, and on success it notifies
every connected client except `requester` of the layout change and returns
success. -/
theorem setDesktopSize_spec (cfg : ServerConfig) (s : ServerState)
    (requester : Nat) (w h : Int) (layout : ScreenSet) (code : SDSResult)
    (eff : ServerState → ServerState) :
    (cfg.acceptSetDesktopSize = false →
       setDesktopSize cfg s requester w h layout code eff =
         (s, [], .ok .prohibited)) ∧
    (cfg.acceptSetDesktopSize = true → (16384 < w ∨ 16384 < h) →
       setDesktopSize cfg s requester w h layout code eff =
         (s, [], .ok .prohibited)) ∧
    (cfg.acceptSetDesktopSize = true → w ≤ 16384 → h ≤ 16384 →
     layout.validate w h = false →
       setDesktopSize cfg s requester w h layout code eff =
         (s, [], .ok .invalid)) ∧
    (cfg.acceptSetDesktopSize = true → w ≤ 16384 → h ≤ 16384 →
     layout.validate w h = true → code ≠ SDSResult.success →
       setDesktopSize cfg s requester w h layout code eff =
         (eff s, [Event.desktopSetScreenLayout w h layout], .ok code)) ∧
    (cfg.acceptSetDesktopSize = true → w ≤ 16384 → h ≤ 16384 →
     layout.validate w h = true → code = SDSResult.success →
     (eff s).screenLayout ≠ layout →
       setDesktopSize cfg s requester w h layout code eff =
         (eff s, [Event.desktopSetScreenLayout w h layout],
          .error (.runtimeError
            "Desktop configured a different screen layout than requested"))) ∧
    (cfg.acceptSetDesktopSize = true → w ≤ 16384 → h ≤ 16384 →
     layout.validate w h = true → code = SDSResult.success →
     (eff s).screenLayout = layout →
       setDesktopSize cfg s requester w h layout code eff =
         (eff s,
          [Event.desktopSetScreenLayout w h layout] ++
            ((eff s).clients.filter (fun c => decide (c.connId ≠ requester))).map
              (fun c => Event.clientScreenLayoutChange c.connId
                LayoutReason.otherClient),
          .ok .success)) := by
  refine ⟨fun h1 => ?_, fun h1 h2 => ?_, fun h1 hw hh h3 => ?_,
          fun h1 hw hh h3 h4 => ?_, fun h1 hw hh h3 h4 h5 => ?_,
          fun h1 hw hh h3 h4 h5 => ?_⟩
  · simp [setDesktopSize, h1]
  · simp [setDesktopSize, h1, h2]
  · have hno : ¬(16384 < w ∨ 16384 < h) := by omega
    simp [setDesktopSize, h1, hno, h3]
  · have hno : ¬(16384 < w ∨ 16384 < h) := by omega
    simp [setDesktopSize, h1, hno, h3, h4]
  · have hno : ¬(16384 < w ∨ 16384 < h) := by omega
    simp [setDesktopSize, h1, hno, h3, h4, h5]
  · have hno : ¬(16384 < w ∨ 16384 < h) := by omega
    simp [setDesktopSize, h1, hno, h3, h4, h5]

/-- The screen layout of `setDesktopSize_spec_witness`: one 1920x1080 screen. -/
def lay1080 : ScreenSet := [⟨0, 0, 0, 1920, 1080, 0⟩]

/-- Witness for `setDesktopSize_spec`: a valid resize by client 1 succeeds and
notifies only client 2. -/
theorem setDesktopSize_spec_witness :
    (baseConfig.acceptSetDesktopSize = true ∧
     (1920 : Int) ≤ 16384 ∧ (1080 : Int) ≤ 16384 ∧
     lay1080.validate 1920 1080 = true ∧
     (id { baseState with clients := [connA, connB], screenLayout := lay1080 }
       : ServerState).screenLayout = lay1080) ∧
    setDesktopSize baseConfig
      { baseState with clients := [connA, connB], screenLayout := lay1080 }
      1 1920 1080 lay1080 SDSResult.success id =
      (id { baseState with clients := [connA, connB], screenLayout := lay1080 },
       [Event.desktopSetScreenLayout 1920 1080 lay1080] ++
         [Event.clientScreenLayoutChange 2 LayoutReason.otherClient],
       .ok .success) :=
  ⟨⟨by decide, by decide, by decide, by decide, by decide⟩,
   by
    have h := (setDesktopSize_spec baseConfig
      { baseState with clients := [connA, connB], screenLayout := lay1080 }
      1 1920 1080 lay1080 SDSResult.success id).2.2.2.2.2
      (by decide) (by decide) (by decide) (by decide) rfl (by decide)
    rw [h]
    decide⟩

/-- `startDesktop` is a no-op when the desktop is already started. -/
theorem startDesktop_started (cfg : ServerConfig) (s : ServerState)
    (startCb : ServerState → ServerState) (h : s.desktopStarted = true) :
    startDesktop cfg s startCb = ⟨s, [], none⟩ := by
  unfold startDesktop
  simp [h]

/-- When the desktop is not yet started, the first external call of
`startDesktop` is `desktop->start()`. -/
theorem startDesktop_not_started (cfg : ServerConfig) (s : ServerState)
    (startCb : ServerState → ServerState) (h : s.desktopStarted = false) :
    (startDesktop cfg s startCb).events.head? = some Event.desktopStart := by
  unfold startDesktop
  rw [h]
  simp only [Bool.false_eq_true, if_false]
  split
  · simp
  · split <;> simp

/-- `approveConnection` never changes coordinator state, found or not. -/
theorem approveConnection_state (s : ServerState) (sock : Socket)
    (accept : Bool) (reason : Option String) :
    (approveConnection s sock accept reason).1 = s := by
  unfold approveConnection
  cases s.clients.find? (fun c => decide (c.sock = sock)) <;> rfl

/-- Counterexample to C7 as stated: with `neverShared` on, `disconnectClients`
off and one authenticated client, `queryConnection` rejects the new client
with the reason string "The server is already in use", not
"Server is already in use" as the claim says. -/
theorem queryConnection_reason_counterexample :
    ({ baseConfig with neverShared := true }.neverShared = true ∧
     { baseConfig with neverShared := true }.disconnectClients = false ∧
     0 < authClientCount rsState) ∧
    (queryConnection { baseConfig with neverShared := true } rsState connB
       "alice" id).events =
      [Event.approveConn 2 false (some "The server is already in use")] ∧
    (queryConnection { baseConfig with neverShared := true } rsState connB
       "alice" id).events ≠
      [Event.approveConn 2 false (some "Server is already in use")] ∧
    "The server is already in use" ≠ "Server is already in use" := by
  decide

/-- **C7 (amended).** `queryConnection(client, userName)` first clears the
peer's blacklist mark and starts the desktop; then, if `neverShared` is set,
`disconnectClients` is unset, and at least one authenticated client exists, it
rejects `client` with the reason "The server is already in use" (not
"Server is already in use"); else it auto-approves when `queryConnect` is
unset and the socket does not require a query, or when the client holds
`AccessNoQuery`; otherwise it delegates the decision to
`desktop.queryConnection`. -/
theorem queryConnection_spec (cfg : ServerConfig) (s : ServerState)
    (client : Connection) (userName : String)
    (startCb : ServerState → ServerState)
    (hfind : s.clients.find? (fun c => decide (c.sock = client.sock)) =
      some client) :
    (s.desktopStarted = false →
       (queryConnection cfg s client userName startCb).events.head? =
         some Event.desktopStart) ∧
    (s.desktopStarted = true →
       (queryConnection cfg s client userName startCb).state.blacklist =
         (clearBlackmark s client.sock.peerAddress).blacklist ∧
       ((cfg.neverShared && !cfg.disconnectClients &&
           decide (0 < authClientCount s)) = true →
          (queryConnection cfg s client userName startCb).events =
            [Event.approveConn client.connId false
              (some "The server is already in use")]) ∧
       (¬((cfg.neverShared && !cfg.disconnectClients &&
            decide (0 < authClientCount s)) = true) →
        (!cfg.queryConnect && !client.sock.requiresQuery) = true →
          (queryConnection cfg s client userName startCb).events =
            [Event.approveConn client.connId true none]) ∧
       (¬((cfg.neverShared && !cfg.disconnectClients &&
            decide (0 < authClientCount s)) = true) →
        ¬((!cfg.queryConnect && !client.sock.requiresQuery) = true) →
        client.accessNoQuery = true →
          (queryConnection cfg s client userName startCb).events =
            [Event.approveConn client.connId true none]) ∧
       (¬((cfg.neverShared && !cfg.disconnectClients &&
            decide (0 < authClientCount s)) = true) →
        ¬((!cfg.queryConnect && !client.sock.requiresQuery) = true) →
        ¬(client.accessNoQuery = true) →
          (queryConnection cfg s client userName startCb).events =
            [Event.desktopQueryConnection client.sock.sid userName])) := by
  constructor
  · intro hns
    have hh := startDesktop_not_started cfg
      (clearBlackmark s client.sock.peerAddress)
      startCb (by simpa [clearBlackmark] using hns)
    have hq : ∃ tl, (queryConnection cfg s client userName startCb).events =
        (startDesktop cfg (clearBlackmark s client.sock.peerAddress)
          startCb).events ++ tl := by
      rcases herr : (startDesktop cfg (clearBlackmark s client.sock.peerAddress)
          startCb).error with _ | e
      · simp only [queryConnection, herr]
        split_ifs <;> exact ⟨_, rfl⟩
      · simp only [queryConnection, herr]
        exact ⟨[], by simp⟩
    obtain ⟨tl, htl⟩ := hq
    rcases hl : (startDesktop cfg (clearBlackmark s client.sock.peerAddress)
        startCb).events with _ | ⟨x, t2⟩
    · rw [hl] at hh
      simp at hh
    · rw [hl] at hh
      simp at hh
      rw [htl, hl]
      simp [hh]
  · intro hstart
    have hr := startDesktop_started cfg (clearBlackmark s client.sock.peerAddress)
      startCb (by simpa [clearBlackmark] using hstart)
    have hac : authClientCount (clearBlackmark s client.sock.peerAddress) =
        authClientCount s := by
      simp [authClientCount, clearBlackmark]
    simp only [queryConnection, hr, hac]
    refine ⟨?_, fun h1 => ?_, fun h1 h2 => ?_, fun h1 h2 h3 => ?_,
            fun h1 h2 h3 => ?_⟩
    · split_ifs <;> simp [approveConnection_state, clearBlackmark]
    · rw [if_pos h1]
      simp [approveConnection, clearBlackmark, hfind]
    · rw [if_neg h1, if_pos h2]
      simp [approveConnection, clearBlackmark, hfind]
    · rw [if_neg h1, if_neg h2, if_pos h3]
      simp [approveConnection, clearBlackmark, hfind]
    · rw [if_neg h1, if_neg h2, if_neg h3]
      simp

/-- Witness for `queryConnection_spec`: the never-shared rejection branch at a
concrete state, showing the emitted reason string. -/
theorem queryConnection_spec_witness :
    (rsState.clients.find?
       (fun (c : Connection) => decide (c.sock = connB.sock)) = some connB ∧
     rsState.desktopStarted = true ∧
     ({ baseConfig with neverShared := true }.neverShared &&
      !{ baseConfig with neverShared := true }.disconnectClients &&
      decide (0 < authClientCount rsState)) = true) ∧
    (queryConnection { baseConfig with neverShared := true } rsState connB
       "alice" id).events =
      [Event.approveConn connB.connId false
        (some "The server is already in use")] :=
  ⟨⟨by decide, by decide, by decide⟩,
   ((queryConnection_spec { baseConfig with neverShared := true } rsState connB
      "alice" id (by decide)).2 (by decide)).2.1 (by decide)⟩

/-- `writeUpdate` touches nothing but the comparer. -/
theorem writeUpdate_fields (cfg : ServerConfig) (s : ServerState) :
    (writeUpdate cfg s).1.msc = s.msc ∧
    (writeUpdate cfg s).1.queuedMsc = s.queuedMsc ∧
    (writeUpdate cfg s).1.frameTimer = s.frameTimer ∧
    (writeUpdate cfg s).1.desktopStarted = s.desktopStarted ∧
    (writeUpdate cfg s).1.blockCounter = s.blockCounter := by
  simp [writeUpdate]

/-- `startFrameClock` touches nothing but the frame timer. -/
theorem startFrameClock_fields (cfg : ServerConfig) (s : ServerState) :
    (startFrameClock cfg s).pb = s.pb ∧
    (startFrameClock cfg s).comparer = s.comparer ∧
    (startFrameClock cfg s).desktopStarted = s.desktopStarted ∧
    (startFrameClock cfg s).blockCounter = s.blockCounter ∧
    (startFrameClock cfg s).msc = s.msc ∧
    (startFrameClock cfg s).queuedMsc = s.queuedMsc ∧
    (startFrameClock cfg s).clients = s.clients := by
  unfold startFrameClock
  split_ifs <;> simp

/-- Counterexample to C3 as stated: `setPixelBuffer` with a non-null buffer
and an invalid layout surfaces invalid-argument, but the coordinator has
already adopted the new buffer and dropped the comparer — the state is changed
and `comparer`-iff-`pb` is broken. -/
theorem setPixelBuffer_invariant_counterexample :
    (setPixelBuffer baseConfig baseState (some ⟨640, 480⟩) []).error =
      some (.invalidArgument "setPixelBuffer: Invalid screen layout") ∧
    (setPixelBuffer baseConfig baseState (some ⟨640, 480⟩) []).state.pb =
      some ⟨640, 480⟩ ∧
    (setPixelBuffer baseConfig baseState (some ⟨640, 480⟩) []).state.comparer =
      none ∧
    ¬((setPixelBuffer baseConfig baseState
        (some ⟨640, 480⟩) []).state.comparer.isSome ↔
      (setPixelBuffer baseConfig baseState (some ⟨640, 480⟩) []).state.pb.isSome) ∧
    (setPixelBuffer baseConfig baseState (some ⟨640, 480⟩) []).state ≠
      baseState := by
  decide

/-- **C3 (amended).** After `setPixelBuffer(pb, layout)` returns *normally*,
`comparer` is non-null iff `pb` is non-null; but when it surfaces an
invalid-argument failure for a layout that does not validate, the coordinator
has already set `pb` to the new buffer and `comparer` to null — the state is
changed and the iff invariant is broken until a later successful
`setPixelBuffer`. -/
theorem setPixelBuffer_invariant_spec (cfg : ServerConfig) (s : ServerState)
    (pb_ : Option PixelBuffer) (layout : ScreenSet) :
    ((setPixelBuffer cfg s pb_ layout).error = none →
       ((setPixelBuffer cfg s pb_ layout).state.comparer.isSome ↔
        (setPixelBuffer cfg s pb_ layout).state.pb.isSome)) ∧
    (∀ b, pb_ = some b → layout.validate b.width b.height = false →
       setPixelBuffer cfg s pb_ layout =
         ⟨{ s with pb := some b, comparer := none }, [],
          some (.invalidArgument "setPixelBuffer: Invalid screen layout")⟩) := by
  constructor
  · intro herr
    cases pb_ with
    | none =>
      by_cases hd : s.desktopStarted = true <;> simp_all [setPixelBuffer]
    | some b =>
      by_cases hv : layout.validate b.width b.height = false <;>
        simp_all [setPixelBuffer, add_changed, startFrameClock_fields]
  · intro b hb hv
    subst hb
    simp [setPixelBuffer, hv]

/-- Witness for `setPixelBuffer_invariant_spec`: the invalid-layout failure
path at a concrete state. -/
theorem setPixelBuffer_invariant_spec_witness :
    (ScreenSet.validate ([] : ScreenSet) (640 : Int) (480 : Int) = false) ∧
    setPixelBuffer baseConfig baseState (some ⟨640, 480⟩) [] =
      ⟨{ baseState with pb := some ⟨640, 480⟩, comparer := none }, [],
       some (.invalidArgument "setPixelBuffer: Invalid screen layout")⟩ :=
  ⟨by decide,
   (setPixelBuffer_invariant_spec baseConfig baseState
     (some ⟨640, 480⟩) []).2 ⟨640, 480⟩ rfl (by decide)⟩

/-- The state of `frameTimer_expiry_counterexample`: frame clock armed, empty
comparer, `queuedMsc = msc = 5`. -/
def ftickState : ServerState :=
  { baseState with
    desktopStarted := true
    pb := some ⟨640, 480⟩
    comparer := some ⟨true, true⟩
    msc := 5
    queuedMsc := 5
    frameTimer := ⟨true, 16⟩ }

/-- Counterexample to C1 as stated: a frame-timer expiry that finds nothing
pending and `queuedMsc ≤ msc` (here equal) does *not* return without
re-arming — the code only returns early when `queuedMsc < msc` strictly, so
this expiry re-arms the timer, increments `msc` and ticks. -/
theorem frameTimer_expiry_counterexample :
    nothingPending ftickState = true ∧
    ftickState.queuedMsc ≤ ftickState.msc ∧
    (handleTimeout baseConfig ftickState .frame).1.frameTimer.running = true ∧
    (handleTimeout baseConfig ftickState .frame).1.msc = ftickState.msc + 1 ∧
    (handleTimeout baseConfig ftickState .frame).2 =
      [Event.desktopFrameTick 6] := by
  decide

/-- **C1 (amended).** After `startFrameClock` the frame timer runs iff it was
already running, or `blockCounter == 0` and (work is pending — the desktop is
started with an absent or non-empty comparer — or `msc ≤ queuedMsc`);
`blockUpdates` always stops it.  A frameTimer expiry that finds nothing
pending and `queuedMsc < msc` (strictly) returns without re-arming the timer,
while every other expiry re-arms it at the normal (or slow, when the desktop
is stopped) rate, increments `msc` by exactly 1, and ends by calling
`desktop.frameTick(msc)`. -/
theorem frameClock_spec (cfg : ServerConfig) (s : ServerState) :
    ((startFrameClock cfg s).frameTimer.running = true ↔
       (s.frameTimer.running = true ∨
        (s.blockCounter = 0 ∧
         (nothingPending s = false ∨ s.msc ≤ s.queuedMsc)))) ∧
    ((blockUpdates s).frameTimer.running = false) ∧
    (nothingPending s = true ∧ s.queuedMsc < s.msc →
       handleTimeout cfg s .frame = (s, [])) ∧
    (¬(nothingPending s = true ∧ s.queuedMsc < s.msc) →
       (handleTimeout cfg s .frame).1.msc = s.msc + 1 ∧
       (handleTimeout cfg s .frame).1.frameTimer =
         ⟨true, if s.desktopStarted = false then 1000
                else 1000 / cfg.frameRate⟩ ∧
       (handleTimeout cfg s .frame).2.getLast? =
         some (Event.desktopFrameTick (s.msc + 1))) := by
  refine ⟨?_, ?_, fun h => ?_, fun h => ?_⟩
  · unfold startFrameClock
    split_ifs with h1 h2 h3 <;>
      cases hnp : nothingPending s <;>
        simp_all <;> omega
  · simp [blockUpdates, stopFrameClock]
  · simp only [handleTimeout]
    rw [if_pos h]
  · simp only [handleTimeout]
    rw [if_neg h]
    refine ⟨?_, ?_, ?_⟩ <;>
      split <;>
        simp [writeUpdate_fields, List.getLast?_concat]

/-- The state of `frameClock_spec_witness`: nothing pending and
`queuedMsc < msc` strictly, so the next expiry stops the clock. -/
def fstopState : ServerState :=
  { baseState with
    desktopStarted := true
    pb := some ⟨640, 480⟩
    comparer := some ⟨true, true⟩
    msc := 5
    queuedMsc := 3
    frameTimer := ⟨true, 16⟩ }

/-- Witness for `frameClock_spec`: an expiry with nothing pending and
`queuedMsc < msc` returns without re-arming. -/
theorem frameClock_spec_witness :
    (nothingPending fstopState = true ∧
     fstopState.queuedMsc < fstopState.msc) ∧
    handleTimeout baseConfig fstopState .frame = (fstopState, []) :=
  ⟨⟨by decide, by decide⟩,
   (frameClock_spec baseConfig fstopState).2.2.1 ⟨by decide, by decide⟩⟩

end VNCServerST
